import Mathlib

/-!
Shallow embedding of the MS5611 STM32 HAL SPI driver
(source files MS5611SPI.c and MS5611SPI.h).

Machine integers are modelled as Nat (for the unsigned C types) and Int
(for the signed ones).  A store into an `int32_t` variable is modelled by
`toInt32`, the wrap to the two's-complement range [-2^31, 2^31).  The
`int64_t` intermediates of MS5611_Data_Convert are modelled as exact
integers: every 64-bit intermediate of the compensation formula stays far
below 2^63 for the input ranges the theorems below quantify over.  The
C right shift `>> n` on a signed 64-bit intermediate is an arithmetic
(floor) shift on this platform, modelled by `sar` (Euclidean division by
2^n, which is floor division since the divisor is positive).

The SPI transport (HAL_SPI_Transmit / HAL_SPI_Receive), the chip-select
line (HAL_GPIO_WritePin via enableCS_MS5611 / disableCS_MS5611) and
HAL_Delay are external collaborators.  They are modelled by an oracle
`List SpiReply` that yields, per bus transfer in program order, whether
the HAL call returns HAL_OK and which bytes a receive delivers; an
exhausted oracle behaves as a failing transfer.  Each driver operation
returns, besides its C return value and outputs, the list of hardware
events (`Ev`) it performed and the unconsumed rest of the oracle.
-/

/-- MS5611StateTypeDef, the driver status enum from MS5611SPI.h. -/
inductive MS5611StateTypeDef where
  | MS5611_STATE_FAILED
  | MS5611_STATE_READY
  | MS5611_STATE_BUSY
  | MS5611_HAL_ERROR
  deriving DecidableEq, Repr

export MS5611StateTypeDef (MS5611_STATE_FAILED MS5611_STATE_READY MS5611_STATE_BUSY MS5611_HAL_ERROR)

/-- One oracle entry: the outcome of one HAL_SPI_Transmit or HAL_SPI_Receive
    call.  For a receive, `data` is the byte sequence the device puts on the
    wire; for a transmit the data is irrelevant. -/
inductive SpiReply where
  | fail
  | ok (data : List Nat)
  deriving DecidableEq, Repr

/-- Hardware events a driver operation performs, in program order.
    csLow / csHigh are the chip-select assert / release
    (enableCS_MS5611 / disableCS_MS5611 with the handler's port and pin);
    tx / rx carry the command byte resp. receive size together with the
    timeout argument passed to the HAL; delay is HAL_Delay. -/
inductive Ev where
  | csLow (port pin : Nat)
  | csHigh (port pin : Nat)
  | tx (b : Nat) (tmo : Nat)
  | rx (n : Nat) (tmo : Nat)
  | delay (ms : Nat)
  deriving DecidableEq, Repr

/-- struct promData from MS5611SPI.h: eight uint16_t calibration words. -/
structure promData where
  reserved : Nat
  sens : Nat
  off : Nat
  tcs : Nat
  tco : Nat
  tref : Nat
  tempsens : Nat
  crc : Nat
  deriving DecidableEq, Repr

/-- MS5611_Raw_Data_TypeDef: the two uncompensated uint32_t ADC values. -/
structure MS5611_Raw_Data_TypeDef where
  pressure : Nat
  temperature : Nat
  deriving DecidableEq, Repr

/-- MS5611_Converted_Data_TypeDef: compensated int32_t values. -/
structure MS5611_Converted_Data_TypeDef where
  pressure : Int
  temperature : Int
  deriving DecidableEq, Repr

/-- MS5611_HW_InitTypeDef from MS5611SPI.h.  The opaque SPI handle pointer is
    modelled as a Nat identifier. -/
structure MS5611_HW_InitTypeDef where
  SPIhandler : Nat
  CS_GPIOport : Nat
  CS_GPIOpin : Nat
  SPI_Timeout : Nat
  deriving DecidableEq, Repr

/-- Wrap of an unbounded integer to the int32_t value range, i.e. the effect
    of storing into an int32_t variable (two's complement). -/
def toInt32 (x : Int) : Int := (x + 2 ^ 31) % 2 ^ 32 - 2 ^ 31

/-- Arithmetic (sign-preserving) right shift by n of a signed intermediate:
    floor division by 2^n.  Int division `/` is Euclidean division, which for
    the positive divisor 2^n coincides with floor division. -/
def sar (x : Int) (n : Nat) : Int := x / 2 ^ n

/-- dT of MS5611_Data_Convert (MS5611SPI.c line 197):
    dT = sample->temperature - ((int32_t)(promData.tref << 8)), the uint32_t
    subtraction stored into the int32_t variable dT. -/
def convdT (prom : promData) (sample : MS5611_Raw_Data_TypeDef) : Int :=
  toInt32 ((sample.temperature : Int) - (prom.tref : Int) * 256)

/-- TEMP of MS5611_Data_Convert (line 199):
    TEMP = 2000 + (((int64_t) dT * promData.tempsens) >> 23). -/
def convTEMP (prom : promData) (sample : MS5611_Raw_Data_TypeDef) : Int :=
  toInt32 (2000 + sar (convdT prom sample * (prom.tempsens : Int)) 23)

/-- The second-order correction block of MS5611_Data_Convert
    (lines 205-215): given dT and TEMP, yields (T2, OFF2, SENS2) as computed
    inside the `TEMP < 2000` branch, including the very-cold sub-branch.
    T2, TEMPM, TEMPP and TEMPP2 are int32_t in the source (hence the
    toInt32 wraps); OFF2 and SENS2 are int64_t. -/
def secondOrder (dT TEMP : Int) : Int × Int × Int :=
  let T2 : Int := toInt32 (sar (dT * dT) 31)
  let TEMPM : Int := toInt32 (TEMP - 2000)
  let OFF2 : Int := sar (5 * TEMPM * TEMPM) 1
  let SENS2 : Int := sar (5 * TEMPM * TEMPM) 2
  if TEMP < -1500 then
    let TEMPP : Int := toInt32 (TEMP + 1500)
    let TEMPP2 : Int := toInt32 (TEMPP * TEMPP)
    (T2, OFF2 + 7 * TEMPP2, SENS2 + sar (11 * TEMPP2) 1)
  else
    (T2, OFF2, SENS2)

/-- MS5611_Data_Convert (MS5611SPI.c lines 191-224): the compensation engine,
    a pure function of the calibration table (the global promData) and the
    raw sample. -/
def MS5611_Data_Convert (prom : promData) (sample : MS5611_Raw_Data_TypeDef) :
    MS5611_Converted_Data_TypeDef :=
  let dT : Int := convdT prom sample
  let TEMP : Int := convTEMP prom sample
  let OFF : Int := (prom.off : Int) * 2 ^ 16 + sar ((prom.tco : Int) * dT) 7
  let SENS : Int := (prom.sens : Int) * 2 ^ 15 + sar ((prom.tcs : Int) * dT) 8
  let fin : Int × Int × Int :=
    if TEMP < 2000 then
      let c := secondOrder dT TEMP
      (toInt32 (TEMP - c.1), OFF - c.2.1, SENS - c.2.2)
    else
      (TEMP, OFF, SENS)
  { pressure := toInt32 (sar (sar ((sample.pressure : Int) * fin.2.2) 21 - fin.2.1) 15),
    temperature := fin.1 }

/-- The datasheet calibration table used by the worked example. -/
def dsCalib : promData :=
  { reserved := 0, sens := 40127, off := 36924, tcs := 23317,
    tco := 23282, tref := 33464, tempsens := 28312, crc := 0 }

/-- Byte swap of a uint16_t value (the swap loop of MS5611PromRead,
    MS5611SPI.c lines 96-102): on this little-endian platform the byte at
    offset 0 is v % 256 and the byte at offset 1 is v / 256; exchanging them
    yields v / 256 + 256 * (v % 256). -/
def swap16 (v : Nat) : Nat := 256 * (v % 256) + v / 256

/-- The PROM-read loop of MS5611PromRead (MS5611SPI.c lines 75-93).
    `addr` is the loop variable, `cnt` the number of remaining iterations,
    `prom` the current contents of the global promData viewed as the
    uint16_t[8] the source casts it to (index 0 = reserved ... 7 = crc).
    Each iteration: assert CS, transmit PROM_READ(address) = 0xA0 | (addr<<1)
    with timeout 10; on failure release CS and return MS5611_HAL_ERROR;
    receive 2 bytes with timeout 10 into the current word (little-endian
    store: first wire byte at offset 0); on failure release CS and return
    MS5611_HAL_ERROR; release CS and advance. -/
def promReadLoop (port pin : Nat) :
    Nat → Nat → List Nat → List SpiReply →
    MS5611StateTypeDef × List Nat × List Ev × List SpiReply
  | _, 0, prom, bus => (MS5611_STATE_READY, prom, [], bus)
  | addr, cnt + 1, prom, bus =>
    match bus with
    | [] =>
      (MS5611_HAL_ERROR, prom,
       [Ev.csLow port pin, Ev.tx (0xA0 ||| (addr <<< 1)) 10, Ev.csHigh port pin], [])
    | SpiReply.fail :: bus1 =>
      (MS5611_HAL_ERROR, prom,
       [Ev.csLow port pin, Ev.tx (0xA0 ||| (addr <<< 1)) 10, Ev.csHigh port pin], bus1)
    | SpiReply.ok _ :: bus1 =>
      match bus1 with
      | [] =>
        (MS5611_HAL_ERROR, prom,
         [Ev.csLow port pin, Ev.tx (0xA0 ||| (addr <<< 1)) 10, Ev.rx 2 10,
          Ev.csHigh port pin], [])
      | SpiReply.fail :: bus2 =>
        (MS5611_HAL_ERROR, prom,
         [Ev.csLow port pin, Ev.tx (0xA0 ||| (addr <<< 1)) 10, Ev.rx 2 10,
          Ev.csHigh port pin], bus2)
      | SpiReply.ok d :: bus2 =>
        let w : Nat := d.getD 0 0 % 256 + 256 * (d.getD 1 0 % 256)
        let r := promReadLoop port pin (addr + 1) cnt (prom.set addr w) bus2
        (r.1, r.2.1,
         [Ev.csLow port pin, Ev.tx (0xA0 ||| (addr <<< 1)) 10, Ev.rx 2 10,
          Ev.csHigh port pin] ++ r.2.2.1,
         r.2.2.2)

/-- MS5611PromRead (MS5611SPI.c lines 68-105): runs the eight-word read loop
    and, when the loop completed (READY), swaps the two bytes of every word.
    On an error exit the loop's partially updated, not yet swapped words are
    left in the global. -/
def MS5611PromRead (h : MS5611_HW_InitTypeDef) (prom0 : List Nat)
    (bus : List SpiReply) :
    MS5611StateTypeDef × List Nat × List Ev × List SpiReply :=
  let r := promReadLoop h.CS_GPIOport h.CS_GPIOpin 0 8 prom0 bus
  (r.1,
   if r.1 = MS5611_STATE_READY then r.2.1.map swap16 else r.2.1,
   r.2.2.1, r.2.2.2)

/-- MS5611_Init (MS5611SPI.c lines 38-60): assert CS, transmit RESET_COMMAND
    0x1E with timeout 10 (on failure release CS and return MS5611_HAL_ERROR),
    HAL_Delay(3), release CS, call MS5611PromRead discarding its status, then
    return MS5611_STATE_FAILED when promData.off == 0x00 or
    promData.tref == 0xff, else MS5611_STATE_READY. -/
def MS5611_Init (h : MS5611_HW_InitTypeDef) (prom0 : List Nat)
    (bus : List SpiReply) :
    MS5611StateTypeDef × List Nat × List Ev × List SpiReply :=
  match bus with
  | [] =>
    (MS5611_HAL_ERROR, prom0,
     [Ev.csLow h.CS_GPIOport h.CS_GPIOpin, Ev.tx 0x1E 10,
      Ev.csHigh h.CS_GPIOport h.CS_GPIOpin], [])
  | SpiReply.fail :: bus1 =>
    (MS5611_HAL_ERROR, prom0,
     [Ev.csLow h.CS_GPIOport h.CS_GPIOpin, Ev.tx 0x1E 10,
      Ev.csHigh h.CS_GPIOport h.CS_GPIOpin], bus1)
  | SpiReply.ok _ :: bus1 =>
    let r := MS5611PromRead h prom0 bus1
    ((if r.2.1.getD 2 0 = 0 ∨ r.2.1.getD 5 0 = 0xff
      then MS5611_STATE_FAILED else MS5611_STATE_READY),
     r.2.1,
     [Ev.csLow h.CS_GPIOport h.CS_GPIOpin, Ev.tx 0x1E 10, Ev.delay 3,
      Ev.csHigh h.CS_GPIOport h.CS_GPIOpin] ++ r.2.2.1,
     r.2.2.2)

/-- MS5611_Pressure_Conversion (MS5611SPI.c lines 113-127): assert CS,
    transmit CONVERT_D1_COMMAND | OSR with timeout 10, release CS; returns
    MS5611_STATE_BUSY on success, MS5611_HAL_ERROR on transmit failure. -/
def MS5611_Pressure_Conversion (h : MS5611_HW_InitTypeDef) (osr : Nat)
    (bus : List SpiReply) : MS5611StateTypeDef × List Ev × List SpiReply :=
  match bus with
  | [] =>
    (MS5611_HAL_ERROR,
     [Ev.csLow h.CS_GPIOport h.CS_GPIOpin, Ev.tx (0x40 ||| osr % 256) 10,
      Ev.csHigh h.CS_GPIOport h.CS_GPIOpin], [])
  | SpiReply.fail :: bus1 =>
    (MS5611_HAL_ERROR,
     [Ev.csLow h.CS_GPIOport h.CS_GPIOpin, Ev.tx (0x40 ||| osr % 256) 10,
      Ev.csHigh h.CS_GPIOport h.CS_GPIOpin], bus1)
  | SpiReply.ok _ :: bus1 =>
    (MS5611_STATE_BUSY,
     [Ev.csLow h.CS_GPIOport h.CS_GPIOpin, Ev.tx (0x40 ||| osr % 256) 10,
      Ev.csHigh h.CS_GPIOport h.CS_GPIOpin], bus1)

/-- MS5611_Temperature_Conversion (MS5611SPI.c lines 135-150): the same
    single-command transaction with CONVERT_D2_COMMAND 0x50. -/
def MS5611_Temperature_Conversion (h : MS5611_HW_InitTypeDef) (osr : Nat)
    (bus : List SpiReply) : MS5611StateTypeDef × List Ev × List SpiReply :=
  match bus with
  | [] =>
    (MS5611_HAL_ERROR,
     [Ev.csLow h.CS_GPIOport h.CS_GPIOpin, Ev.tx (0x50 ||| osr % 256) 10,
      Ev.csHigh h.CS_GPIOport h.CS_GPIOpin], [])
  | SpiReply.fail :: bus1 =>
    (MS5611_HAL_ERROR,
     [Ev.csLow h.CS_GPIOport h.CS_GPIOpin, Ev.tx (0x50 ||| osr % 256) 10,
      Ev.csHigh h.CS_GPIOport h.CS_GPIOpin], bus1)
  | SpiReply.ok _ :: bus1 =>
    (MS5611_STATE_BUSY,
     [Ev.csLow h.CS_GPIOport h.CS_GPIOpin, Ev.tx (0x50 ||| osr % 256) 10,
      Ev.csHigh h.CS_GPIOport h.CS_GPIOpin], bus1)

/-- MS5611_ADC_Read (MS5611SPI.c lines 158-182): assert CS, transmit
    READ_ADC_COMMAND 0x00 with timeout 10, receive 3 bytes with timeout 10
    (releasing CS and returning MS5611_HAL_ERROR on either failure, without
    touching *raw_data), release CS, then store
    (reply[0] << 16) | (reply[1] << 8) | reply[2] into *raw_data and return
    MS5611_STATE_READY.  `raw0` is the value *raw_data held before the call;
    the second component of the result is the value it holds after. -/
def MS5611_ADC_Read (h : MS5611_HW_InitTypeDef) (raw0 : Nat)
    (bus : List SpiReply) :
    MS5611StateTypeDef × Nat × List Ev × List SpiReply :=
  match bus with
  | [] =>
    (MS5611_HAL_ERROR, raw0,
     [Ev.csLow h.CS_GPIOport h.CS_GPIOpin, Ev.tx 0x00 10,
      Ev.csHigh h.CS_GPIOport h.CS_GPIOpin], [])
  | SpiReply.fail :: bus1 =>
    (MS5611_HAL_ERROR, raw0,
     [Ev.csLow h.CS_GPIOport h.CS_GPIOpin, Ev.tx 0x00 10,
      Ev.csHigh h.CS_GPIOport h.CS_GPIOpin], bus1)
  | SpiReply.ok _ :: bus1 =>
    match bus1 with
    | [] =>
      (MS5611_HAL_ERROR, raw0,
       [Ev.csLow h.CS_GPIOport h.CS_GPIOpin, Ev.tx 0x00 10, Ev.rx 3 10,
        Ev.csHigh h.CS_GPIOport h.CS_GPIOpin], [])
    | SpiReply.fail :: bus2 =>
      (MS5611_HAL_ERROR, raw0,
       [Ev.csLow h.CS_GPIOport h.CS_GPIOpin, Ev.tx 0x00 10, Ev.rx 3 10,
        Ev.csHigh h.CS_GPIOport h.CS_GPIOpin], bus2)
    | SpiReply.ok d :: bus2 =>
      (MS5611_STATE_READY,
       ((d.getD 0 0 % 256) <<< 16) ||| ((d.getD 1 0 % 256) <<< 8) ||| (d.getD 2 0 % 256),
       [Ev.csLow h.CS_GPIOport h.CS_GPIOpin, Ev.tx 0x00 10, Ev.rx 3 10,
        Ev.csHigh h.CS_GPIOport h.CS_GPIOpin], bus2)

/-- The chip-select sub-trace of an event list: true for an assert
    (enableCS_MS5611), false for a release (disableCS_MS5611). -/
def csOnly : List Ev → List Bool
  | [] => []
  | Ev.csLow _ _ :: r => true :: csOnly r
  | Ev.csHigh _ _ :: r => false :: csOnly r
  | _ :: r => csOnly r

/-- Checks that a chip-select sub-trace is a sequence of assert/release
    pairs: every assert is followed by exactly one release before anything
    else happens to the select line. -/
def altCS : List Bool → Bool
  | [] => true
  | true :: false :: r => altCS r
  | _ => false

/-- Checks that every SPI transfer of a trace was issued with the hardcoded
    10 ms HAL timeout. -/
def timeouts10 : List Ev → Bool
  | [] => true
  | Ev.tx _ tmo :: r => (tmo == 10) && timeouts10 r
  | Ev.rx _ tmo :: r => (tmo == 10) && timeouts10 r
  | _ :: r => timeouts10 r

/-- Whether an oracle prefix contains a failing transfer. -/
def hasFail : List SpiReply → Bool
  | [] => false
  | SpiReply.fail :: _ => true
  | _ :: r => hasFail r

/-- The prefix of the oracle an operation consumed, given the unconsumed
    rest it returned. -/
def consumed (bus rest : List SpiReply) : List SpiReply :=
  bus.take (bus.length - rest.length)

/-- Whether a status is the bus-error outcome MS5611_HAL_ERROR. -/
def isHalError : MS5611StateTypeDef → Bool
  | MS5611_HAL_ERROR => true
  | _ => false

/-- Whether the first transfer the oracle offers fails (an exhausted oracle
    counts as failing). -/
def busHeadFail : List SpiReply → Bool
  | [] => true
  | SpiReply.fail :: _ => true
  | SpiReply.ok _ :: _ => false

/-- All eight calibration words are in the uint16_t range. -/
def prom16 (p : promData) : Prop :=
  p.reserved < 65536 ∧ p.sens < 65536 ∧ p.off < 65536 ∧ p.tcs < 65536 ∧
  p.tco < 65536 ∧ p.tref < 65536 ∧ p.tempsens < 65536 ∧ p.crc < 65536

instance (p : promData) : Decidable (prom16 p) := by
  unfold prom16
  infer_instance

/-- Both raw ADC values are in the 24-bit range the converter produces. -/
def sample24 (s : MS5611_Raw_Data_TypeDef) : Prop :=
  s.pressure < 16777216 ∧ s.temperature < 16777216

instance (s : MS5611_Raw_Data_TypeDef) : Decidable (sample24 s) := by
  unfold sample24
  infer_instance

/-- Storing a value already inside the int32_t range is the identity. -/
theorem toInt32_eq_self {x : Int} (h1 : -2147483648 ≤ x) (h2 : x < 2147483648) :
    toInt32 x = x := by
  unfold toInt32
  have e1 : (2 : Int) ^ 31 = 2147483648 := by norm_num
  have e2 : (2 : Int) ^ 32 = 4294967296 := by norm_num
  rw [e1, e2, Int.emod_eq_of_lt (by omega) (by omega)]
  omega

/-- For in-range inputs, dT does not wrap and lies in the 25-bit range. -/
theorem convdT_bounds (p : promData) (s : MS5611_Raw_Data_TypeDef)
    (hp : p.tref < 65536) (hs : s.temperature < 16777216) :
    -16776960 ≤ convdT p s ∧ convdT p s ≤ 16777215 := by
  have he : convdT p s = (s.temperature : Int) - (p.tref : Int) * 256 := by
    unfold convdT
    exact toInt32_eq_self (by omega) (by omega)
  constructor <;> (rw [he]; omega)

/-- For in-range inputs, TEMP does not wrap and is bounded well inside the
    int32_t range. -/
theorem convTEMP_bounds (p : promData) (s : MS5611_Raw_Data_TypeDef)
    (hp1 : p.tref < 65536) (hp2 : p.tempsens < 65536) (hs : s.temperature < 16777216) :
    -129072 ≤ convTEMP p s ∧ convTEMP p s ≤ 133072 := by
  obtain ⟨hd1, hd2⟩ := convdT_bounds p s hp1 hs
  have hc0 : (0 : Int) ≤ (p.tempsens : Int) := Int.ofNat_nonneg _
  have hc1 : (p.tempsens : Int) ≤ 65535 := by omega
  have hprod1 : convdT p s * (p.tempsens : Int) ≤ 1099511627776 := by
    nlinarith [mul_le_mul_of_nonneg_right hd2 hc0]
  have hprod2 : -1099511627776 ≤ convdT p s * (p.tempsens : Int) := by
    nlinarith [mul_le_mul_of_nonneg_right hd1 hc0]
  have hq1 : sar (convdT p s * (p.tempsens : Int)) 23 ≤ 131072 := by
    have h := Int.ediv_le_ediv (show (0 : Int) < 2 ^ 23 by positivity) hprod1
    have he : (1099511627776 : Int) / 2 ^ 23 = 131072 := by decide
    rw [he] at h
    exact h
  have hq2 : -131072 ≤ sar (convdT p s * (p.tempsens : Int)) 23 := by
    have h := Int.ediv_le_ediv (show (0 : Int) < 2 ^ 23 by positivity) hprod2
    have he : (-1099511627776 : Int) / 2 ^ 23 = -131072 := by decide
    rw [he] at h
    exact h
  have he : convTEMP p s = 2000 + sar (convdT p s * (p.tempsens : Int)) 23 := by
    unfold convTEMP
    exact toInt32_eq_self (by omega) (by omega)
  constructor <;> (rw [he]; omega)

/-- The very-cold branch of the second-order correction, spelled out. -/
theorem secondOrder_cold (dT T : Int) (hcold : T < -1500) :
    secondOrder dT T
      = (toInt32 (sar (dT * dT) 31),
         sar (5 * toInt32 (T - 2000) * toInt32 (T - 2000)) 1
           + 7 * toInt32 (toInt32 (T + 1500) * toInt32 (T + 1500)),
         sar (5 * toInt32 (T - 2000) * toInt32 (T - 2000)) 2
           + sar (11 * toInt32 (toInt32 (T + 1500) * toInt32 (T + 1500))) 1) := by
  simp only [secondOrder]
  rw [if_pos hcold]

theorem csOnly_append (l1 l2 : List Ev) : csOnly (l1 ++ l2) = csOnly l1 ++ csOnly l2 := by
  induction l1 with
  | nil => rfl
  | cons e r ih => cases e <;> simp [csOnly, ih]

theorem timeouts10_append (l1 l2 : List Ev) :
    timeouts10 (l1 ++ l2) = (timeouts10 l1 && timeouts10 l2) := by
  induction l1 with
  | nil => rfl
  | cons e r ih => cases e <;> simp [timeouts10, ih, Bool.and_assoc]

theorem swap16_bytes (a b : Nat) :
    swap16 (a % 256 + 256 * (b % 256)) = 256 * (a % 256) + b % 256 := by
  unfold swap16
  omega

theorem consumed_of_split {bus rest pre : List SpiReply} (h : bus = pre ++ rest) :
    consumed bus rest = pre := by
  subst h
  simp [consumed]

/-- Invariant of the PROM read loop: the returned oracle is a suffix of the
    input oracle, the chip-select line is asserted and released in strict
    pairs, every transfer uses the 10 ms timeout, and when the consumed
    prefix contains a failing transfer the loop returns MS5611_HAL_ERROR. -/
theorem promReadLoop_inv (port pin : Nat) :
    ∀ (cnt addr : Nat) (prom : List Nat) (bus : List SpiReply),
    ∃ pre : List SpiReply,
      bus = pre ++ (promReadLoop port pin addr cnt prom bus).2.2.2 ∧
      altCS (csOnly (promReadLoop port pin addr cnt prom bus).2.2.1) = true ∧
      timeouts10 (promReadLoop port pin addr cnt prom bus).2.2.1 = true ∧
      (hasFail pre = true → (promReadLoop port pin addr cnt prom bus).1 = MS5611_HAL_ERROR) := by
  intro cnt
  induction cnt with
  | zero =>
    intro addr prom bus
    exact ⟨[], rfl, rfl, rfl, fun h => by simp [hasFail] at h⟩
  | succ n ih =>
    intro addr prom bus
    match bus with
    | [] =>
      exact ⟨[], rfl, rfl, rfl, fun _ => rfl⟩
    | SpiReply.fail :: bus1 =>
      exact ⟨[SpiReply.fail], rfl, rfl, rfl, fun _ => rfl⟩
    | SpiReply.ok d :: [] =>
      exact ⟨[SpiReply.ok d], rfl, rfl, rfl, fun _ => rfl⟩
    | SpiReply.ok d :: SpiReply.fail :: bus2 =>
      exact ⟨[SpiReply.ok d, SpiReply.fail], rfl, rfl, rfl, fun _ => rfl⟩
    | SpiReply.ok d :: SpiReply.ok e :: bus2 =>
      obtain ⟨pre, h1, h2, h3, h4⟩ :=
        ih (addr + 1) (prom.set addr (e.getD 0 0 % 256 + 256 * (e.getD 1 0 % 256))) bus2
      refine ⟨SpiReply.ok d :: SpiReply.ok e :: pre, ?_, ?_, ?_, ?_⟩
      · exact congrArg (List.cons (SpiReply.ok d))
          (congrArg (List.cons (SpiReply.ok e)) h1)
      · rw [show (promReadLoop port pin addr (n + 1) prom
              (SpiReply.ok d :: SpiReply.ok e :: bus2)).2.2.1 =
            [Ev.csLow port pin, Ev.tx (0xA0 ||| (addr <<< 1)) 10, Ev.rx 2 10,
             Ev.csHigh port pin] ++
            (promReadLoop port pin (addr + 1) n
              (prom.set addr (e.getD 0 0 % 256 + 256 * (e.getD 1 0 % 256))) bus2).2.2.1
            from rfl]
        rw [csOnly_append]
        simpa [csOnly, altCS] using h2
      · rw [show (promReadLoop port pin addr (n + 1) prom
              (SpiReply.ok d :: SpiReply.ok e :: bus2)).2.2.1 =
            [Ev.csLow port pin, Ev.tx (0xA0 ||| (addr <<< 1)) 10, Ev.rx 2 10,
             Ev.csHigh port pin] ++
            (promReadLoop port pin (addr + 1) n
              (prom.set addr (e.getD 0 0 % 256 + 256 * (e.getD 1 0 % 256))) bus2).2.2.1
            from rfl]
        rw [timeouts10_append]
        simpa [timeouts10] using h3
      · exact h4

/-- MS5611PromRead inherits the loop invariant (its status, trace and rest
    components are those of the loop). -/
theorem promRead_inv (sp port pin t : Nat) (prom0 : List Nat) (bus : List SpiReply) :
    ∃ pre : List SpiReply,
      bus = pre ++ (MS5611PromRead ⟨sp, port, pin, t⟩ prom0 bus).2.2.2 ∧
      altCS (csOnly (MS5611PromRead ⟨sp, port, pin, t⟩ prom0 bus).2.2.1) = true ∧
      timeouts10 (MS5611PromRead ⟨sp, port, pin, t⟩ prom0 bus).2.2.1 = true ∧
      (hasFail pre = true →
        (MS5611PromRead ⟨sp, port, pin, t⟩ prom0 bus).1 = MS5611_HAL_ERROR) :=
  promReadLoop_inv port pin 8 0 prom0 bus

/-- The same invariant for MS5611_Pressure_Conversion. -/
theorem pressureConversion_inv (sp port pin t osr : Nat) (bus : List SpiReply) :
    ∃ pre : List SpiReply,
      bus = pre ++ (MS5611_Pressure_Conversion ⟨sp, port, pin, t⟩ osr bus).2.2 ∧
      altCS (csOnly (MS5611_Pressure_Conversion ⟨sp, port, pin, t⟩ osr bus).2.1) = true ∧
      timeouts10 (MS5611_Pressure_Conversion ⟨sp, port, pin, t⟩ osr bus).2.1 = true ∧
      (hasFail pre = true →
        (MS5611_Pressure_Conversion ⟨sp, port, pin, t⟩ osr bus).1 = MS5611_HAL_ERROR) := by
  match bus with
  | [] => exact ⟨[], rfl, rfl, rfl, fun _ => rfl⟩
  | SpiReply.fail :: bus1 => exact ⟨[SpiReply.fail], rfl, rfl, rfl, fun _ => rfl⟩
  | SpiReply.ok d :: bus1 =>
    exact ⟨[SpiReply.ok d], rfl, rfl, rfl, fun h => by simp [hasFail] at h⟩

/-- The same invariant for MS5611_Temperature_Conversion. -/
theorem temperatureConversion_inv (sp port pin t osr : Nat) (bus : List SpiReply) :
    ∃ pre : List SpiReply,
      bus = pre ++ (MS5611_Temperature_Conversion ⟨sp, port, pin, t⟩ osr bus).2.2 ∧
      altCS (csOnly (MS5611_Temperature_Conversion ⟨sp, port, pin, t⟩ osr bus).2.1) = true ∧
      timeouts10 (MS5611_Temperature_Conversion ⟨sp, port, pin, t⟩ osr bus).2.1 = true ∧
      (hasFail pre = true →
        (MS5611_Temperature_Conversion ⟨sp, port, pin, t⟩ osr bus).1 = MS5611_HAL_ERROR) := by
  match bus with
  | [] => exact ⟨[], rfl, rfl, rfl, fun _ => rfl⟩
  | SpiReply.fail :: bus1 => exact ⟨[SpiReply.fail], rfl, rfl, rfl, fun _ => rfl⟩
  | SpiReply.ok d :: bus1 =>
    exact ⟨[SpiReply.ok d], rfl, rfl, rfl, fun h => by simp [hasFail] at h⟩

/-- The same invariant for MS5611_ADC_Read. -/
theorem adcRead_inv (sp port pin t raw0 : Nat) (bus : List SpiReply) :
    ∃ pre : List SpiReply,
      bus = pre ++ (MS5611_ADC_Read ⟨sp, port, pin, t⟩ raw0 bus).2.2.2 ∧
      altCS (csOnly (MS5611_ADC_Read ⟨sp, port, pin, t⟩ raw0 bus).2.2.1) = true ∧
      timeouts10 (MS5611_ADC_Read ⟨sp, port, pin, t⟩ raw0 bus).2.2.1 = true ∧
      (hasFail pre = true →
        (MS5611_ADC_Read ⟨sp, port, pin, t⟩ raw0 bus).1 = MS5611_HAL_ERROR) := by
  match bus with
  | [] => exact ⟨[], rfl, rfl, rfl, fun _ => rfl⟩
  | SpiReply.fail :: bus1 => exact ⟨[SpiReply.fail], rfl, rfl, rfl, fun _ => rfl⟩
  | SpiReply.ok d :: [] => exact ⟨[SpiReply.ok d], rfl, rfl, rfl, fun _ => rfl⟩
  | SpiReply.ok d :: SpiReply.fail :: bus2 =>
    exact ⟨[SpiReply.ok d, SpiReply.fail], rfl, rfl, rfl, fun _ => rfl⟩
  | SpiReply.ok d :: SpiReply.ok e :: bus2 =>
    exact ⟨[SpiReply.ok d, SpiReply.ok e], rfl, rfl, rfl, fun h => by simp [hasFail] at h⟩

/-- Invariant for MS5611_Init: chip-select pairing and 10 ms timeouts always
    hold, and the returned status is the bus-error outcome exactly when the
    reset transmit itself fails; transfer outcomes inside the embedded PROM
    read never make MS5611_Init return MS5611_HAL_ERROR. -/
theorem init_inv (sp port pin t : Nat) (prom0 : List Nat) (bus : List SpiReply) :
    altCS (csOnly (MS5611_Init ⟨sp, port, pin, t⟩ prom0 bus).2.2.1) = true ∧
    timeouts10 (MS5611_Init ⟨sp, port, pin, t⟩ prom0 bus).2.2.1 = true ∧
    isHalError (MS5611_Init ⟨sp, port, pin, t⟩ prom0 bus).1 = busHeadFail bus := by
  match bus with
  | [] => exact ⟨rfl, rfl, rfl⟩
  | SpiReply.fail :: bus1 => exact ⟨rfl, rfl, rfl⟩
  | SpiReply.ok d :: bus1 =>
    obtain ⟨pre, h1, h2, h3, h4⟩ := promRead_inv sp port pin t prom0 bus1
    refine ⟨?_, ?_, ?_⟩
    · rw [show (MS5611_Init ⟨sp, port, pin, t⟩ prom0 (SpiReply.ok d :: bus1)).2.2.1 =
          [Ev.csLow port pin, Ev.tx 0x1E 10, Ev.delay 3, Ev.csHigh port pin] ++
          (MS5611PromRead ⟨sp, port, pin, t⟩ prom0 bus1).2.2.1 from rfl]
      rw [csOnly_append]
      simpa [csOnly, altCS] using h2
    · rw [show (MS5611_Init ⟨sp, port, pin, t⟩ prom0 (SpiReply.ok d :: bus1)).2.2.1 =
          [Ev.csLow port pin, Ev.tx 0x1E 10, Ev.delay 3, Ev.csHigh port pin] ++
          (MS5611PromRead ⟨sp, port, pin, t⟩ prom0 bus1).2.2.1 from rfl]
      rw [timeouts10_append]
      simpa [timeouts10] using h3
    · rw [show (MS5611_Init ⟨sp, port, pin, t⟩ prom0 (SpiReply.ok d :: bus1)).1 =
          (if (MS5611PromRead ⟨sp, port, pin, t⟩ prom0 bus1).2.1.getD 2 0 = 0
              ∨ (MS5611PromRead ⟨sp, port, pin, t⟩ prom0 bus1).2.1.getD 5 0 = 0xff
           then MS5611_STATE_FAILED else MS5611_STATE_READY) from rfl]
      split <;> rfl

theorem failImp_to_bool {pre : List SpiReply} {st : MS5611StateTypeDef}
    (h : hasFail pre = true → st = MS5611_HAL_ERROR) :
    (hasFail pre && !(isHalError st)) = false := by
  cases hf : hasFail pre
  · simp
  · simp [h hf, isHalError]

/-- C1 fails as stated: on the calibration table of the claim, the raw
    sample (pressure 6465444, temperature 8077636) does not reproduce the
    documented compensated temperature 2007 (MS5611_Data_Convert yields
    temperature 238 there). -/
theorem c1_counterexample :
    (MS5611_Data_Convert dsCalib
      { pressure := 6465444, temperature := 8077636 }).temperature ≠ 2007 := by
  decide

/-- C1 (amended): the raw sample of the MS5611 datasheet worked example is
    (pressure 9085466, temperature 8569150); on it, with the calibration
    table {0, 40127, 36924, 23317, 23282, 33464, 28312, 0},
    MS5611_Data_Convert produces exactly the documented compensated
    temperature 2007 and pressure 100009. -/
theorem c1_datasheet_worked_example :
    MS5611_Data_Convert dsCalib { pressure := 9085466, temperature := 8569150 }
      = { pressure := 100009, temperature := 2007 } := by
  decide

/-- C2 (code bug): with an absent device every PROM transfer reads bytes
    0xFF 0xFF, so every calibration word is 0xFFFF: the reference-temperature
    word is the maximum representable 16-bit value, and the claim requires
    MS5611_Init to report a failed state.  The code instead compares
    promData.tref against 0xff (255) rather than 0xffff, so MS5611_Init
    returns MS5611_STATE_READY on this table. -/
theorem c2_absent_device_not_detected :
    (MS5611_Init ⟨0, 0, 0, 0⟩ [0, 0, 0, 0, 0, 0, 0, 0]
        (SpiReply.ok [] ::
          (List.replicate 8 [SpiReply.ok [], SpiReply.ok [255, 255]]).flatten)).1
      = MS5611_STATE_READY ∧
    (MS5611_Init ⟨0, 0, 0, 0⟩ [0, 0, 0, 0, 0, 0, 0, 0]
        (SpiReply.ok [] ::
          (List.replicate 8 [SpiReply.ok [], SpiReply.ok [255, 255]]).flatten)).2.1
      = [65535, 65535, 65535, 65535, 65535, 65535, 65535, 65535] := by
  decide

/-- C7: for any calibration table with reference temperature 0 and all
    coefficients 0 (reserved and crc words arbitrary), MS5611_Data_Convert
    on raw temperature 0 computes TEMP = 2000 exactly, the low-temperature
    guard TEMP < 2000 is false at this boundary, and the compensated
    temperature output is 2000. -/
theorem c7_temp_boundary (r c press : Nat) :
    convTEMP ⟨r, 0, 0, 0, 0, 0, 0, c⟩ ⟨press, 0⟩ = 2000 ∧
    ¬ convTEMP ⟨r, 0, 0, 0, 0, 0, 0, c⟩ ⟨press, 0⟩ < 2000 ∧
    (MS5611_Data_Convert ⟨r, 0, 0, 0, 0, 0, 0, c⟩ ⟨press, 0⟩).temperature = 2000 := by
  have h : convTEMP ⟨r, 0, 0, 0, 0, 0, 0, c⟩ ⟨press, 0⟩ = 2000 := by
    simp [convTEMP, convdT, toInt32, sar]
  refine ⟨h, ?_, ?_⟩
  · rw [h]
    exact lt_irrefl 2000
  · simp [MS5611_Data_Convert, h, toInt32, sar]

/-- C6: on success MS5611_ADC_Read transmits the fixed read command 0x00,
    receives exactly three bytes, and stores the 24-bit value assembled
    most-significant-byte-first, (byte0 << 16) | (byte1 << 8) | byte2,
    into the output parameter. -/
theorem c6_adc_read_success (sp port pin t raw0 b0 b1 b2 : Nat)
    (rest : List SpiReply) (h0 : b0 < 256) (h1 : b1 < 256) (h2 : b2 < 256) :
    MS5611_ADC_Read ⟨sp, port, pin, t⟩ raw0
        (SpiReply.ok [] :: SpiReply.ok [b0, b1, b2] :: rest)
      = (MS5611_STATE_READY, (b0 <<< 16) ||| (b1 <<< 8) ||| b2,
         [Ev.csLow port pin, Ev.tx 0x00 10, Ev.rx 3 10, Ev.csHigh port pin],
         rest) := by
  rw [show MS5611_ADC_Read ⟨sp, port, pin, t⟩ raw0
        (SpiReply.ok [] :: SpiReply.ok [b0, b1, b2] :: rest)
      = (MS5611_STATE_READY, ((b0 % 256) <<< 16) ||| ((b1 % 256) <<< 8) ||| (b2 % 256),
         [Ev.csLow port pin, Ev.tx 0x00 10, Ev.rx 3 10, Ev.csHigh port pin],
         rest) from rfl]
  rw [Nat.mod_eq_of_lt h0, Nat.mod_eq_of_lt h1, Nat.mod_eq_of_lt h2]

/-- Witness for C6 at bytes 1, 2, 3. -/
theorem c6_witness :
    (1 : Nat) < 256 ∧
    MS5611_ADC_Read ⟨0, 0, 0, 0⟩ 7 [SpiReply.ok [], SpiReply.ok [1, 2, 3]]
      = (MS5611_STATE_READY, (1 <<< 16) ||| (2 <<< 8) ||| 3,
         [Ev.csLow 0 0, Ev.tx 0x00 10, Ev.rx 3 10, Ev.csHigh 0 0], []) :=
  ⟨by decide, c6_adc_read_success 0 0 0 0 7 1 2 3 [] (by decide) (by decide) (by decide)⟩

/-- C10: MS5611_ADC_Read is atomic in its output parameter: whenever it
    returns MS5611_HAL_ERROR (transmit or receive failure), the value stored
    at raw_data is left unchanged. -/
theorem c10_adc_read_atomic (sp port pin t raw0 : Nat) (bus : List SpiReply)
    (herr : (MS5611_ADC_Read ⟨sp, port, pin, t⟩ raw0 bus).1 = MS5611_HAL_ERROR) :
    (MS5611_ADC_Read ⟨sp, port, pin, t⟩ raw0 bus).2.1 = raw0 := by
  rcases bus with _ | ⟨r1, bus1⟩
  · rfl
  · rcases r1 with _ | d
    · rfl
    · rcases bus1 with _ | ⟨r2, bus2⟩
      · rfl
      · rcases r2 with _ | e
        · rfl
        · have hcontra : MS5611_STATE_READY = MS5611_HAL_ERROR := herr
          exact absurd hcontra (by decide)

/-- Witness for C10: a failing transmit leaves the output value 5 unchanged. -/
theorem c10_witness :
    (MS5611_ADC_Read ⟨0, 0, 0, 0⟩ 5 [SpiReply.fail]).1 = MS5611_HAL_ERROR ∧
    (MS5611_ADC_Read ⟨0, 0, 0, 0⟩ 5 [SpiReply.fail]).2.1 = 5 :=
  ⟨by decide, c10_adc_read_atomic 0 0 0 0 5 [SpiReply.fail] (by decide)⟩

/-- C9: MS5611_Init discards the status of MS5611PromRead.  Whenever its own
    reset transmit succeeds, the result of MS5611_Init is determined solely
    by the offset / reference-temperature check on the (possibly partially
    updated) calibration table, never the bus-error outcome; concretely, a
    run whose single PROM transfer fails (MS5611PromRead returns
    MS5611_HAL_ERROR on that oracle) still returns MS5611_STATE_READY when
    the stale table passes the check. -/
theorem c9_init_ignores_promread_status (sp port pin t : Nat) (prom0 : List Nat)
    (d : List Nat) (rest : List SpiReply) :
    ((MS5611_Init ⟨sp, port, pin, t⟩ prom0 (SpiReply.ok d :: rest)).1 =
      if (MS5611_Init ⟨sp, port, pin, t⟩ prom0 (SpiReply.ok d :: rest)).2.1.getD 2 0 = 0
          ∨ (MS5611_Init ⟨sp, port, pin, t⟩ prom0 (SpiReply.ok d :: rest)).2.1.getD 5 0 = 0xff
      then MS5611_STATE_FAILED else MS5611_STATE_READY) ∧
    (MS5611PromRead ⟨0, 0, 0, 0⟩ [5, 5, 5, 5, 5, 5, 5, 5] [SpiReply.fail]).1
      = MS5611_HAL_ERROR ∧
    (MS5611_Init ⟨0, 0, 0, 0⟩ [5, 5, 5, 5, 5, 5, 5, 5] [SpiReply.ok [], SpiReply.fail]).1
      = MS5611_STATE_READY :=
  ⟨rfl, by decide, by decide⟩

/-- C4 fails as stated: for MS5611_Init, a transport failure during the
    embedded calibration read (the second oracle entry) is consumed, yet the
    operation returns MS5611_STATE_READY, not the bus-error outcome. -/
theorem c4_counterexample :
    hasFail (consumed [SpiReply.ok [], SpiReply.fail]
        (MS5611_Init ⟨0, 0, 0, 0⟩ [5, 5, 5, 5, 5, 5, 5, 5]
          [SpiReply.ok [], SpiReply.fail]).2.2.2) = true ∧
    (MS5611_Init ⟨0, 0, 0, 0⟩ [5, 5, 5, 5, 5, 5, 5, 5]
        [SpiReply.ok [], SpiReply.fail]).1 ≠ MS5611_HAL_ERROR := by
  decide

/-- C4 (amended): every Protocol Driver operation asserts and releases the
    chip-select line in strict pairs on every path, each assert followed by
    exactly one release before the operation returns.  A transport failure
    in the consumed oracle prefix forces the bus-error return for
    MS5611PromRead, MS5611_Pressure_Conversion, MS5611_Temperature_Conversion
    and MS5611_ADC_Read; MS5611_Init returns the bus-error outcome exactly
    when its own reset transmit fails, while failures inside its embedded
    calibration read are discarded. -/
theorem c4_cs_and_error_discipline (sp port pin t osrP osrT raw0 : Nat)
    (prom0 : List Nat) (bus : List SpiReply) :
    altCS (csOnly (MS5611_Init ⟨sp, port, pin, t⟩ prom0 bus).2.2.1) = true ∧
    altCS (csOnly (MS5611PromRead ⟨sp, port, pin, t⟩ prom0 bus).2.2.1) = true ∧
    altCS (csOnly (MS5611_Pressure_Conversion ⟨sp, port, pin, t⟩ osrP bus).2.1) = true ∧
    altCS (csOnly (MS5611_Temperature_Conversion ⟨sp, port, pin, t⟩ osrT bus).2.1) = true ∧
    altCS (csOnly (MS5611_ADC_Read ⟨sp, port, pin, t⟩ raw0 bus).2.2.1) = true ∧
    (hasFail (consumed bus (MS5611PromRead ⟨sp, port, pin, t⟩ prom0 bus).2.2.2)
      && !(isHalError (MS5611PromRead ⟨sp, port, pin, t⟩ prom0 bus).1)) = false ∧
    (hasFail (consumed bus (MS5611_Pressure_Conversion ⟨sp, port, pin, t⟩ osrP bus).2.2)
      && !(isHalError (MS5611_Pressure_Conversion ⟨sp, port, pin, t⟩ osrP bus).1)) = false ∧
    (hasFail (consumed bus (MS5611_Temperature_Conversion ⟨sp, port, pin, t⟩ osrT bus).2.2)
      && !(isHalError (MS5611_Temperature_Conversion ⟨sp, port, pin, t⟩ osrT bus).1)) = false ∧
    (hasFail (consumed bus (MS5611_ADC_Read ⟨sp, port, pin, t⟩ raw0 bus).2.2.2)
      && !(isHalError (MS5611_ADC_Read ⟨sp, port, pin, t⟩ raw0 bus).1)) = false ∧
    isHalError (MS5611_Init ⟨sp, port, pin, t⟩ prom0 bus).1 = busHeadFail bus := by
  obtain ⟨preP, hP1, hP2, hP3, hP4⟩ := promRead_inv sp port pin t prom0 bus
  obtain ⟨prePr, hPr1, hPr2, hPr3, hPr4⟩ := pressureConversion_inv sp port pin t osrP bus
  obtain ⟨preT, hT1, hT2, hT3, hT4⟩ := temperatureConversion_inv sp port pin t osrT bus
  obtain ⟨preA, hA1, hA2, hA3, hA4⟩ := adcRead_inv sp port pin t raw0 bus
  obtain ⟨hI1, hI2, hI3⟩ := init_inv sp port pin t prom0 bus
  refine ⟨hI1, hP2, hPr2, hT2, hA2, ?_, ?_, ?_, ?_, hI3⟩
  · rw [consumed_of_split hP1]
    exact failImp_to_bool hP4
  · rw [consumed_of_split hPr1]
    exact failImp_to_bool hPr4
  · rw [consumed_of_split hT1]
    exact failImp_to_bool hT4
  · rw [consumed_of_split hA1]
    exact failImp_to_bool hA4

/-- C5: on a fully successful oracle, MS5611PromRead performs exactly eight
    sequential transactions, the i-th transmitting the one-byte command
    0xA0 | (i << 1) and receiving two bytes for word i, and after all eight
    words are captured every word holds its two received bytes swapped:
    first (most significant) wire byte times 256 plus second wire byte. -/
theorem c5_promread_eight_transactions
    (sp port pin t p0 p1 p2 p3 p4 p5 p6 p7
     a0 b0 a1 b1 a2 b2 a3 b3 a4 b4 a5 b5 a6 b6 a7 b7 : Nat)
    (rest : List SpiReply) :
    (MS5611PromRead ⟨sp, port, pin, t⟩ [p0, p1, p2, p3, p4, p5, p6, p7]
        ([SpiReply.ok [], SpiReply.ok [a0, b0], SpiReply.ok [], SpiReply.ok [a1, b1],
          SpiReply.ok [], SpiReply.ok [a2, b2], SpiReply.ok [], SpiReply.ok [a3, b3],
          SpiReply.ok [], SpiReply.ok [a4, b4], SpiReply.ok [], SpiReply.ok [a5, b5],
          SpiReply.ok [], SpiReply.ok [a6, b6], SpiReply.ok [], SpiReply.ok [a7, b7]]
         ++ rest)).1 = MS5611_STATE_READY ∧
    (MS5611PromRead ⟨sp, port, pin, t⟩ [p0, p1, p2, p3, p4, p5, p6, p7]
        ([SpiReply.ok [], SpiReply.ok [a0, b0], SpiReply.ok [], SpiReply.ok [a1, b1],
          SpiReply.ok [], SpiReply.ok [a2, b2], SpiReply.ok [], SpiReply.ok [a3, b3],
          SpiReply.ok [], SpiReply.ok [a4, b4], SpiReply.ok [], SpiReply.ok [a5, b5],
          SpiReply.ok [], SpiReply.ok [a6, b6], SpiReply.ok [], SpiReply.ok [a7, b7]]
         ++ rest)).2.1
      = [256 * (a0 % 256) + b0 % 256, 256 * (a1 % 256) + b1 % 256,
         256 * (a2 % 256) + b2 % 256, 256 * (a3 % 256) + b3 % 256,
         256 * (a4 % 256) + b4 % 256, 256 * (a5 % 256) + b5 % 256,
         256 * (a6 % 256) + b6 % 256, 256 * (a7 % 256) + b7 % 256] ∧
    (MS5611PromRead ⟨sp, port, pin, t⟩ [p0, p1, p2, p3, p4, p5, p6, p7]
        ([SpiReply.ok [], SpiReply.ok [a0, b0], SpiReply.ok [], SpiReply.ok [a1, b1],
          SpiReply.ok [], SpiReply.ok [a2, b2], SpiReply.ok [], SpiReply.ok [a3, b3],
          SpiReply.ok [], SpiReply.ok [a4, b4], SpiReply.ok [], SpiReply.ok [a5, b5],
          SpiReply.ok [], SpiReply.ok [a6, b6], SpiReply.ok [], SpiReply.ok [a7, b7]]
         ++ rest)).2.2.1
      = [Ev.csLow port pin, Ev.tx (0xA0 ||| (0 <<< 1)) 10, Ev.rx 2 10, Ev.csHigh port pin,
         Ev.csLow port pin, Ev.tx (0xA0 ||| (1 <<< 1)) 10, Ev.rx 2 10, Ev.csHigh port pin,
         Ev.csLow port pin, Ev.tx (0xA0 ||| (2 <<< 1)) 10, Ev.rx 2 10, Ev.csHigh port pin,
         Ev.csLow port pin, Ev.tx (0xA0 ||| (3 <<< 1)) 10, Ev.rx 2 10, Ev.csHigh port pin,
         Ev.csLow port pin, Ev.tx (0xA0 ||| (4 <<< 1)) 10, Ev.rx 2 10, Ev.csHigh port pin,
         Ev.csLow port pin, Ev.tx (0xA0 ||| (5 <<< 1)) 10, Ev.rx 2 10, Ev.csHigh port pin,
         Ev.csLow port pin, Ev.tx (0xA0 ||| (6 <<< 1)) 10, Ev.rx 2 10, Ev.csHigh port pin,
         Ev.csLow port pin, Ev.tx (0xA0 ||| (7 <<< 1)) 10, Ev.rx 2 10, Ev.csHigh port pin] ∧
    (MS5611PromRead ⟨sp, port, pin, t⟩ [p0, p1, p2, p3, p4, p5, p6, p7]
        ([SpiReply.ok [], SpiReply.ok [a0, b0], SpiReply.ok [], SpiReply.ok [a1, b1],
          SpiReply.ok [], SpiReply.ok [a2, b2], SpiReply.ok [], SpiReply.ok [a3, b3],
          SpiReply.ok [], SpiReply.ok [a4, b4], SpiReply.ok [], SpiReply.ok [a5, b5],
          SpiReply.ok [], SpiReply.ok [a6, b6], SpiReply.ok [], SpiReply.ok [a7, b7]]
         ++ rest)).2.2.2 = rest := by
  refine ⟨rfl, ?_, rfl, rfl⟩
  show List.map swap16
      [a0 % 256 + 256 * (b0 % 256), a1 % 256 + 256 * (b1 % 256),
       a2 % 256 + 256 * (b2 % 256), a3 % 256 + 256 * (b3 % 256),
       a4 % 256 + 256 * (b4 % 256), a5 % 256 + 256 * (b5 % 256),
       a6 % 256 + 256 * (b6 % 256), a7 % 256 + 256 * (b7 % 256)] = _
  simp only [List.map_cons, List.map_nil, swap16_bytes]

/-- C8: the SPI_Timeout field of MS5611_HW_InitTypeDef is never read: two
    handlers differing only in SPI_Timeout produce identical results (status,
    outputs, hardware events, oracle consumption) for every operation, and
    every SPI transfer any operation issues uses the hardcoded 10 ms
    timeout. -/
theorem c8_spi_timeout_never_read (sp port pin t1 t2 osrP osrT raw0 : Nat)
    (prom0 : List Nat) (bus : List SpiReply) :
    MS5611_Init ⟨sp, port, pin, t1⟩ prom0 bus
      = MS5611_Init ⟨sp, port, pin, t2⟩ prom0 bus ∧
    MS5611PromRead ⟨sp, port, pin, t1⟩ prom0 bus
      = MS5611PromRead ⟨sp, port, pin, t2⟩ prom0 bus ∧
    MS5611_Pressure_Conversion ⟨sp, port, pin, t1⟩ osrP bus
      = MS5611_Pressure_Conversion ⟨sp, port, pin, t2⟩ osrP bus ∧
    MS5611_Temperature_Conversion ⟨sp, port, pin, t1⟩ osrT bus
      = MS5611_Temperature_Conversion ⟨sp, port, pin, t2⟩ osrT bus ∧
    MS5611_ADC_Read ⟨sp, port, pin, t1⟩ raw0 bus
      = MS5611_ADC_Read ⟨sp, port, pin, t2⟩ raw0 bus ∧
    timeouts10 (MS5611_Init ⟨sp, port, pin, t1⟩ prom0 bus).2.2.1 = true ∧
    timeouts10 (MS5611PromRead ⟨sp, port, pin, t1⟩ prom0 bus).2.2.1 = true ∧
    timeouts10 (MS5611_Pressure_Conversion ⟨sp, port, pin, t1⟩ osrP bus).2.1 = true ∧
    timeouts10 (MS5611_Temperature_Conversion ⟨sp, port, pin, t1⟩ osrT bus).2.1 = true ∧
    timeouts10 (MS5611_ADC_Read ⟨sp, port, pin, t1⟩ raw0 bus).2.2.1 = true := by
  obtain ⟨preP, hP1, hP2, hP3, hP4⟩ := promRead_inv sp port pin t1 prom0 bus
  obtain ⟨prePr, hPr1, hPr2, hPr3, hPr4⟩ := pressureConversion_inv sp port pin t1 osrP bus
  obtain ⟨preT, hT1, hT2, hT3, hT4⟩ := temperatureConversion_inv sp port pin t1 osrT bus
  obtain ⟨preA, hA1, hA2, hA3, hA4⟩ := adcRead_inv sp port pin t1 raw0 bus
  obtain ⟨hI1, hI2, hI3⟩ := init_inv sp port pin t1 prom0 bus
  exact ⟨rfl, rfl, rfl, rfl, rfl, hI2, hP3, hPr3, hT3, hA3⟩

/-- C3 fails as stated: at the 16-bit calibration words tref = 65535 and
    tempsens = 65535 with 24-bit raw temperature 0, the intermediate TEMP is
    -129069 < -1500, but TEMPP2 = (TEMP+1500)^2 is computed in an int32_t
    and wraps, so the code does not add exactly 7*(TEMP+1500)^2 to OFF2. -/
theorem c3_counterexample :
    convTEMP { dsCalib with tref := 65535, tempsens := 65535 }
        { pressure := 0, temperature := 0 } < -1500 ∧
    ¬ ((secondOrder
          (convdT { dsCalib with tref := 65535, tempsens := 65535 }
            { pressure := 0, temperature := 0 })
          (convTEMP { dsCalib with tref := 65535, tempsens := 65535 }
            { pressure := 0, temperature := 0 })).2.1
        = sar (5 * (convTEMP { dsCalib with tref := 65535, tempsens := 65535 }
                      { pressure := 0, temperature := 0 } - 2000)
                 * (convTEMP { dsCalib with tref := 65535, tempsens := 65535 }
                      { pressure := 0, temperature := 0 } - 2000)) 1
          + 7 * ((convTEMP { dsCalib with tref := 65535, tempsens := 65535 }
                    { pressure := 0, temperature := 0 } + 1500)
                 * (convTEMP { dsCalib with tref := 65535, tempsens := 65535 }
                      { pressure := 0, temperature := 0 } + 1500))) := by
  constructor
  · decide
  · decide

/-- C3 (amended): for every 24-bit raw sample and 16-bit calibration table
    for which the intermediate TEMP is below -1500 and additionally
    (TEMP+1500)^2 fits in an int32_t (at most 2^31 - 1), the very-cold
    corrections are exact: the branch adds OFF2 += 7*(TEMP+1500)^2 and
    SENS2 += (11*(TEMP+1500)^2) >> 1 in exact integer arithmetic with
    arithmetic (floor) right shifts; outside that range the int32_t variable
    TEMPP2 wraps. -/
theorem c3_very_cold_exact (p : promData) (s : MS5611_Raw_Data_TypeDef)
    (hp : prom16 p) (hs : sample24 s)
    (hcold : convTEMP p s < -1500)
    (hfit : (convTEMP p s + 1500) * (convTEMP p s + 1500) ≤ 2 ^ 31 - 1) :
    (secondOrder (convdT p s) (convTEMP p s)).2.1
      = sar (5 * (convTEMP p s - 2000) * (convTEMP p s - 2000)) 1
        + 7 * ((convTEMP p s + 1500) * (convTEMP p s + 1500)) ∧
    (secondOrder (convdT p s) (convTEMP p s)).2.2
      = sar (5 * (convTEMP p s - 2000) * (convTEMP p s - 2000)) 2
        + sar (11 * ((convTEMP p s + 1500) * (convTEMP p s + 1500))) 1 := by
  obtain ⟨hT1, hT2⟩ := convTEMP_bounds p s hp.2.2.2.2.2.1 hp.2.2.2.2.2.2.1 hs.2
  have hfit' : (convTEMP p s + 1500) * (convTEMP p s + 1500) ≤ 2147483647 := by
    have e : (2 : Int) ^ 31 - 1 = 2147483647 := by norm_num
    rw [e] at hfit
    exact hfit
  have hM : toInt32 (convTEMP p s - 2000) = convTEMP p s - 2000 :=
    toInt32_eq_self (by omega) (by omega)
  have hP : toInt32 (convTEMP p s + 1500) = convTEMP p s + 1500 :=
    toInt32_eq_self (by omega) (by omega)
  have hP2 : toInt32 ((convTEMP p s + 1500) * (convTEMP p s + 1500))
      = (convTEMP p s + 1500) * (convTEMP p s + 1500) :=
    toInt32_eq_self
      (le_trans (by norm_num) (mul_self_nonneg _))
      (lt_of_le_of_lt hfit' (by norm_num))
  rw [secondOrder_cold (convdT p s) (convTEMP p s) hcold]
  simp [hP, hP2, hM]

/-- Witness for C3 (amended) at the datasheet calibration words and raw
    temperature 0 (TEMP = -26914). -/
theorem c3_witness :
    prom16 dsCalib ∧ sample24 { pressure := 0, temperature := 0 } ∧
    convTEMP dsCalib { pressure := 0, temperature := 0 } < -1500 ∧
    (convTEMP dsCalib { pressure := 0, temperature := 0 } + 1500)
      * (convTEMP dsCalib { pressure := 0, temperature := 0 } + 1500) ≤ 2 ^ 31 - 1 ∧
    (secondOrder (convdT dsCalib { pressure := 0, temperature := 0 })
        (convTEMP dsCalib { pressure := 0, temperature := 0 })).2.1
      = sar (5 * (convTEMP dsCalib { pressure := 0, temperature := 0 } - 2000)
               * (convTEMP dsCalib { pressure := 0, temperature := 0 } - 2000)) 1
        + 7 * ((convTEMP dsCalib { pressure := 0, temperature := 0 } + 1500)
               * (convTEMP dsCalib { pressure := 0, temperature := 0 } + 1500)) :=
  ⟨by decide, by decide, by decide, by decide,
   (c3_very_cold_exact dsCalib { pressure := 0, temperature := 0 }
     (by decide) (by decide) (by decide) (by decide)).1⟩
